import Mathlib

/-
Shallow embedding of the provider abstraction / translation layer of the
git-mcp-server repository (TypeScript sources under src/):
  - src/lib/errors.ts              (typed API errors)
  - src/providers/github/mapper.ts (GitHub raw -> canonical mapping)
  - src/providers/gitlab/mapper.ts (GitLab raw -> canonical mapping)
  - src/providers/github/provider.ts (GitHub adapter: issues.list, getTree,
    commit orchestrator, listJobs)
  - src/providers/gitlab provider  (GitLab adapter: listJobs query mapping)
  - src/github/client.ts           (HTTP layer: one fetch per request)
Nullable / optional TypeScript fields are Option; JavaScript truthiness on
strings and numbers is made explicit via the js* helpers below.
-/

namespace GitMcp

/-- JS truthiness of a nullable string: null/undefined and "" are falsy. -/
def jsTruthyStr : Option String → Bool
  | none => false
  | some s => s ≠ ""

/-- JS `a || d` for a nullable string `a`: falls back on null/undefined/"". -/
def jsOrStr (v : Option String) (d : String) : String :=
  match v with
  | none => d
  | some s => if s = "" then d else s

/-- JS `a || d` for a nullable number `a`: falls back on null/undefined/0. -/
def jsOrNat (v : Option Nat) (d : Nat) : Nat :=
  match v with
  | none => d
  | some n => if n = 0 then d else n

/-- JS `Math.round(d / 1000)` for an integer number of milliseconds `d`:
    rounds half toward positive infinity (floor of x + 1/2). -/
def jsRoundDiv1000 (d : Int) : Int :=
  Int.fdiv (d + 500) 1000

/-- Character-level splitter behind `jsSplit` (`''.split(sep)` semantics:
    the result is never empty, and empty fragments are kept). -/
def splitChar (sep : Char) : List Char → List (List Char)
  | [] => [[]]
  | c :: rest =>
      match splitChar sep rest with
      | [] => [[]]
      | h :: t => if c = sep then [] :: h :: t else (c :: h) :: t

/-- JS `s.split(sep)` for a one-character separator. -/
def jsSplit (sep : Char) (s : String) : List String :=
  (splitChar sep s.toList).map (fun cs => String.mk cs)

/-- JS `s.startsWith(p2)`. -/
def strStartsWith (s p2 : String) : Bool :=
  p2.toList.isPrefixOf s.toList

/-- JS `s.endsWith(p2)`. -/
def strEndsWith (s p2 : String) : Bool :=
  p2.toList.reverse.isPrefixOf s.toList.reverse

-- ============================================================================
-- Canonical data model (src/providers/types.ts)
-- ============================================================================

/-- Canonical `'open' | 'closed'` issue state. -/
inductive IssueState
  | open'
  | closed
deriving DecidableEq, Repr

/-- Canonical `'open' | 'closed' | 'merged'` pull-request state. -/
inductive PRState
  | open'
  | closed
  | merged
deriving DecidableEq, Repr

/-- Canonical pipeline / job status vocabulary. -/
inductive JobStatus
  | pending
  | running
  | success
  | failed
  | canceled
  | skipped
deriving DecidableEq, Repr

/-- The string literal of a canonical job status (as sent in query strings). -/
def JobStatus.toStr : JobStatus → String
  | .pending => "pending"
  | .running => "running"
  | .success => "success"
  | .failed => "failed"
  | .canceled => "canceled"
  | .skipped => "skipped"

structure User where
  id : Int
  username : String
  name : String
  avatar_url : Option String
  web_url : Option String
deriving DecidableEq, Repr

structure Issue where
  id : Int
  iid : Int
  title : String
  description : Option String
  state : IssueState
  author : User
  assignees : List User
  labels : List String
  created_at : String
  updated_at : String
  closed_at : Option String
  web_url : String
deriving DecidableEq, Repr

structure PullRequest where
  id : Int
  iid : Int
  title : String
  description : Option String
  state : PRState
  source_branch : String
  target_branch : String
  author : User
  assignees : List User
  reviewers : List User
  labels : List String
  draft : Bool
  mergeable : Bool
  created_at : String
  updated_at : String
  merged_at : Option String
  web_url : String
deriving DecidableEq, Repr

inductive EntryType
  | file
  | directory
deriving DecidableEq, Repr

structure TreeEntry where
  name : String
  path : String
  type : EntryType
  mode : String
  sha : Option String
deriving DecidableEq, Repr

structure CommitStats where
  additions : Int
  deletions : Int
  total : Int
deriving DecidableEq, Repr

structure Commit where
  sha : String
  short_sha : String
  message : String
  author_name : String
  author_email : String
  created_at : String
  web_url : Option String
  stats : Option CommitStats
deriving DecidableEq, Repr

structure Job where
  id : Int
  name : String
  status : JobStatus
  stage : String
  created_at : String
  started_at : Option String
  finished_at : Option String
  duration : Option Int
  web_url : String
deriving DecidableEq, Repr

inductive FileActionKind
  | create
  | update
  | delete
  | move
deriving DecidableEq, Repr

structure FileAction where
  action : FileActionKind
  path : String
  content : Option String
  previous_path : Option String
deriving DecidableEq, Repr

structure CommitParams where
  branch : String
  message : String
  actions : List FileAction
  base_branch : Option String
  author_name : Option String
  author_email : Option String
deriving DecidableEq, Repr

structure TreeParams where
  path : Option String
  ref : Option String
  recursive : Option Bool
  page : Option Nat
  per_page : Option Nat
deriving DecidableEq, Repr

structure JobListParams where
  status : Option JobStatus
  page : Option Nat
  per_page : Option Nat
deriving DecidableEq, Repr

-- ============================================================================
-- GitHub raw API types (src/github/types.ts)
-- ============================================================================

namespace GH

structure GitHubUser where
  id : Int
  login : String
  name : Option String
  avatar_url : String
  html_url : String
  type : String
deriving DecidableEq, Repr

structure GitHubLabel where
  id : Int
  name : String
  color : String
  description : Option String
deriving DecidableEq, Repr

structure GitHubMilestone where
  id : Int
  number : Int
  title : String
  description : Option String
  state : IssueState
  due_on : Option String
deriving DecidableEq, Repr

/-- The `pull_request` marker object the issues endpoint attaches to items
    that are really pull requests. -/
structure GitHubIssuePRRef where
  url : String
  html_url : String
deriving DecidableEq, Repr

structure GitHubIssue where
  id : Int
  number : Int
  title : String
  body : Option String
  state : IssueState
  state_reason : Option String
  user : GitHubUser
  assignees : List GitHubUser
  labels : List GitHubLabel
  milestone : Option GitHubMilestone
  created_at : String
  updated_at : String
  closed_at : Option String
  html_url : String
  pull_request : Option GitHubIssuePRRef
deriving DecidableEq, Repr

structure GitHubRepoRef where
  full_name : String
deriving DecidableEq, Repr

structure GitHubBranchTip where
  ref : String
  sha : String
  repo : Option GitHubRepoRef
deriving DecidableEq, Repr

structure GitHubPullRequest where
  id : Int
  number : Int
  title : String
  body : Option String
  state : IssueState
  draft : Bool
  user : GitHubUser
  assignees : List GitHubUser
  requested_reviewers : List GitHubUser
  labels : List GitHubLabel
  head : GitHubBranchTip
  base : GitHubBranchTip
  merged : Bool
  mergeable : Option Bool
  mergeable_state : String
  merged_at : Option String
  merged_by : Option GitHubUser
  created_at : String
  updated_at : String
  closed_at : Option String
  html_url : String
deriving DecidableEq, Repr

structure GitHubTreeItem where
  path : String
  mode : String
  type : String
  sha : String
  size : Option Int
  url : String
deriving DecidableEq, Repr

structure GitPerson where
  name : String
  email : String
  date : String
deriving DecidableEq, Repr

structure GitHubCommitInner where
  message : String
  author : GitPerson
  committer : GitPerson
deriving DecidableEq, Repr

structure GitHubCommit where
  sha : String
  html_url : String
  commit : GitHubCommitInner
  author : Option GitHubUser
  committer : Option GitHubUser
  stats : Option CommitStats
deriving DecidableEq, Repr

/-- Workflow job from the Actions API; `status` and `conclusion` are kept as
    raw strings since the mapper switches over string literals with a default
    branch. The optional `steps` array is unused by the mapper and omitted. -/
structure GitHubWorkflowJob where
  id : Int
  run_id : Int
  name : String
  status : String
  conclusion : Option String
  started_at : Option String
  completed_at : Option String
  html_url : String
deriving DecidableEq, Repr

structure GitHubCreateCommitResponse where
  sha : String
  html_url : String
  message : String
  author : GitPerson
deriving DecidableEq, Repr

-- ============================================================================
-- GitHub mapper (src/providers/github/mapper.ts)
-- ============================================================================

/-- `mapUser`: `name: user.name || user.login`. -/
def mapUser (user : GitHubUser) : User :=
  { id := user.id
    username := user.login
    name := jsOrStr user.name user.login
    avatar_url := some user.avatar_url
    web_url := some user.html_url }

/-- `mapIssue`: GitHub already uses `'open' | 'closed'` natively. -/
def mapIssue (issue : GitHubIssue) : Issue :=
  { id := issue.id
    iid := issue.number
    title := issue.title
    description := issue.body
    state := issue.state
    author := mapUser issue.user
    assignees := issue.assignees.map mapUser
    labels := issue.labels.map (fun l => l.name)
    created_at := issue.created_at
    updated_at := issue.updated_at
    closed_at := issue.closed_at
    web_url := issue.html_url }

/-- Pass-through of GitHub's two-valued raw PR state into the canonical
    three-valued vocabulary (the TypeScript code returns the same string). -/
def rawToPRState : IssueState → PRState
  | .open' => .open'
  | .closed => .closed

/-- `mapPullRequestState`: `if (pr.merged || pr.merged_at) return 'merged'`,
    else pass through the raw state. `pr.merged_at` is tested by JS
    truthiness (null and "" are falsy). -/
def mapPullRequestState (pr : GitHubPullRequest) : PRState :=
  if pr.merged || jsTruthyStr pr.merged_at then .merged
  else rawToPRState pr.state

/-- `mapPullRequest`: `draft: pr.draft`, `mergeable: pr.mergeable ?? false`. -/
def mapPullRequest (pr : GitHubPullRequest) : PullRequest :=
  { id := pr.id
    iid := pr.number
    title := pr.title
    description := pr.body
    state := mapPullRequestState pr
    source_branch := pr.head.ref
    target_branch := pr.base.ref
    author := mapUser pr.user
    assignees := pr.assignees.map mapUser
    reviewers := pr.requested_reviewers.map mapUser
    labels := pr.labels.map (fun l => l.name)
    draft := pr.draft
    mergeable := pr.mergeable.getD false
    created_at := pr.created_at
    updated_at := pr.updated_at
    merged_at := pr.merged_at
    web_url := pr.html_url }

/-- `mapTreeEntry`: `name: item.path.split('/').pop() || item.path`. -/
def mapTreeEntry (item : GitHubTreeItem) : TreeEntry :=
  { name :=
      match (jsSplit '/' item.path).reverse with
      | [] => item.path
      | s :: _ => if s = "" then item.path else s
    path := item.path
    type := if item.type = "tree" then .directory else .file
    mode := item.mode
    sha := some item.sha }

/-- `mapCommit`: `short_sha: commit.sha.substring(0, 7)`. -/
def mapCommit (commit : GitHubCommit) : Commit :=
  { sha := commit.sha
    short_sha := commit.sha.take 7
    message := commit.commit.message
    author_name := commit.commit.author.name
    author_email := commit.commit.author.email
    created_at := commit.commit.author.date
    web_url := some commit.html_url
    stats := commit.stats }

/-- `mapJobStatus`: two-level rule — when `status === 'completed'` switch on
    the conclusion (default `pending`), otherwise `in_progress` maps to
    `running` and everything else to `pending`. -/
def mapJobStatus (job : GitHubWorkflowJob) : JobStatus :=
  if job.status = "completed" then
    match job.conclusion with
    | some "success" => .success
    | some "failure" => .failed
    | some "timed_out" => .failed
    | some "cancelled" => .canceled
    | some "skipped" => .skipped
    | _ => .pending
  else if job.status = "in_progress" then .running
  else .pending

/-- `mapJob`. The duration is derived from `new Date(..).getTime()` deltas;
    the ISO-8601-to-epoch-milliseconds parse is abstracted as the `parse`
    argument, and `new Date().toISOString()` (the fallback for `created_at`)
    as the `now` argument. -/
def mapJob (parse : String → Int) (now : String) (job : GitHubWorkflowJob) : Job :=
  let duration : Option Int :=
    match job.started_at, job.completed_at with
    | some s, some c =>
        if s = "" || c = "" then none
        else some (jsRoundDiv1000 (parse c - parse s))
    | _, _ => none
  { id := job.id
    name := job.name
    status := mapJobStatus job
    stage := "default"
    created_at := jsOrStr job.started_at now
    started_at := job.started_at
    finished_at := job.completed_at
    duration := duration
    web_url := job.html_url }

-- ============================================================================
-- GitHub adapter operations (src/providers/github/provider.ts)
-- ============================================================================

/-- `issues.list`: `data.filter((i) => !i.pull_request).map(mapIssue)` —
    raw items carrying a `pull_request` marker are removed before mapping. -/
def issuesList (data : List GitHubIssue) : List Issue :=
  (data.filter (fun i => i.pull_request.isNone)).map mapIssue

/-- The in-memory path filter of `getTree`: only applied when `params.path`
    is truthy (JS: the empty string is falsy and skips the filter);
    `prefix = path.endsWith('/') ? path : path + '/'` and entries are kept
    when `e.path.startsWith(prefix) || e.path === params.path`. -/
def treeFilterByPath (entries : List TreeEntry) (path : Option String) : List TreeEntry :=
  match path with
  | some pa =>
      if pa = "" then entries
      else
        let pfx := if strEndsWith pa "/" then pa else pa ++ "/"
        entries.filter (fun e => strStartsWith e.path pfx || e.path == pa)
  | none => entries

/-- `getTree`, after the backend returned the flat tree `data.tree`: map the
    items, filter by path, then slice `[(page-1)*per_page, page*per_page)`
    with JS defaults `page = params?.page || 1`,
    `per_page = params?.per_page || 100`. The ref-resolution network calls
    preceding the fetch do not affect the assembly and are not modelled. -/
def getTreeAssemble (tree : List GitHubTreeItem) (params : Option TreeParams) : List TreeEntry :=
  let entries := tree.map mapTreeEntry
  let entries := treeFilterByPath entries (params.bind (fun p => p.path))
  let page := jsOrNat (params.bind (fun p => p.page)) 1
  let per_page := jsOrNat (params.bind (fun p => p.per_page)) 100
  (entries.drop ((page - 1) * per_page)).take per_page

/-- The two commit-construction strategies of the GitHub adapter. -/
inductive CommitPath
  | fast
  | slow
deriving DecidableEq, Repr

/-- Path selection in `commit`:
    `if (params.actions.length === 1 && params.actions[0].action !== 'delete')`
    the single-file Contents-API fast path is taken; every other input
    (zero actions, two or more actions, or a single delete) falls through to
    the multi-step Git-Data-API slow path. -/
def commitPathSelection (actions : List FileAction) : CommitPath :=
  match actions with
  | [a] => if a.action = .delete then .slow else .fast
  | _ => .slow

/-- Requests issued by the slow path, tagged by endpoint and the
    params-derived data they carry (response-derived hashes are left out of
    the tags). -/
inductive GitReq
  | getRef (branch : String)
  | getBaseCommit
  | postBlob (content : String)
  | postTree
  | postCommit
  | updateRef (branch : String)
deriving DecidableEq, Repr

/-- A step in the chain of awaited network calls: either one awaited request,
    or a `Promise.all` fan-out of several requests in flight at once. -/
inductive NetStep
  | single (r : GitReq)
  | fanout (rs : List GitReq)
deriving DecidableEq, Repr

/-- Number of requests a step holds in flight at once. -/
def stepWidth : NetStep → Nat
  | .single _ => 1
  | .fanout rs => rs.length

/-- The requests of a step, in the order they are initiated. -/
def stepReqs : NetStep → List GitReq
  | .single r => [r]
  | .fanout rs => rs

/-- The request one action contributes inside the `Promise.all`: a delete
    issues no request (it becomes a null-sha tree entry); every other action
    posts a blob with `content: action.content || ''`. -/
def blobReq (a : FileAction) : Option GitReq :=
  if a.action = .delete then none
  else some (.postBlob (jsOrStr a.content ""))

/-- Step 3 of the slow path:
    `await Promise.all(params.actions.map(async (action) => ...))` — all
    blob-creation requests are initiated inside one `Promise.all` fan-out. -/
def slowPathBlobStep (actions : List FileAction) : NetStep :=
  .fanout (actions.filterMap blobReq)

/-- The slow path's chain of network steps (success path; the catch-fallback
    that creates the ref when the update 404s replaces the final step and is
    not modelled separately): resolve
    `base_branch || branch`, fetch the base commit, the `Promise.all` blob
    fan-out, create tree, create commit, update the branch ref. -/
def slowPathPlan (p : CommitParams) : List NetStep :=
  [ .single (.getRef (jsOrStr p.base_branch p.branch))
  , .single .getBaseCommit
  , slowPathBlobStep p.actions
  , .single .postTree
  , .single .postCommit
  , .single (.updateRef p.branch) ]

/-- The Commit value the slow path returns, built inline from the
    create-commit response: `short_sha: new_commit.sha.substring(0, 7)`. -/
def slowPathResultCommit (r : GitHubCreateCommitResponse) : Commit :=
  { sha := r.sha
    short_sha := r.sha.take 7
    message := r.message
    author_name := r.author.name
    author_email := r.author.email
    created_at := r.author.date
    web_url := some r.html_url
    stats := none }

/-- `ci.listJobs`: when a status filter is given, the raw jobs are filtered
    in memory by `mapJob(j).status === target_status` before mapping. -/
def listJobs (parse : String → Int) (now : String)
    (jobs : List GitHubWorkflowJob) (params : Option JobListParams) : List Job :=
  let filtered :=
    match params.bind (fun p => p.status) with
    | some target => jobs.filter (fun j => (mapJob parse now j).status = target)
    | none => jobs
  filtered.map (mapJob parse now)

end GH

-- ============================================================================
-- GitLab raw API types (src/gitlab/types.ts)
-- ============================================================================

namespace GitLab

structure GitLabUser where
  id : Int
  username : String
  name : String
  avatar_url : Option String
  web_url : String
deriving DecidableEq, Repr

/-- Merge request. `state` is kept as a raw string: the mapper's
    `mapMergeRequestState(state: string)` switches over string literals with
    a default branch. `draft` is declared `boolean` in types.ts but the
    mapper guards it with `??`, so runtime absence is representable. -/
structure GitLabMergeRequest where
  id : Int
  iid : Int
  project_id : Int
  title : String
  description : Option String
  state : String
  source_branch : String
  target_branch : String
  source_project_id : Int
  target_project_id : Int
  author : GitLabUser
  assignees : Option (List GitLabUser)
  reviewers : Option (List GitLabUser)
  labels : Option (List String)
  draft : Option Bool
  work_in_progress : Option Bool
  merge_status : String
  web_url : String
  created_at : String
  updated_at : String
  merged_at : Option String
  closed_at : Option String
deriving DecidableEq, Repr

structure GitLabCommit where
  id : String
  short_id : String
  title : String
  message : String
  author_name : String
  author_email : String
  authored_date : String
  committer_name : String
  committer_email : String
  committed_date : String
  web_url : String
  parent_ids : Option (List String)
  stats : Option CommitStats
deriving DecidableEq, Repr

/-- CI job; `status` is kept as a raw string: the mapper checks membership
    in a list of valid status strings and defaults to `pending`. -/
structure GitLabJob where
  id : Int
  name : String
  stage : String
  status : String
  ref : String
  created_at : String
  started_at : Option String
  finished_at : Option String
  duration : Option Int
  web_url : String
deriving DecidableEq, Repr

-- ============================================================================
-- GitLab mapper (src/providers/gitlab/mapper.ts)
-- ============================================================================

/-- `mapUser`: `avatar_url: user.avatar_url ?? undefined`. -/
def mapUser (user : GitLabUser) : User :=
  { id := user.id
    username := user.username
    name := user.name
    avatar_url := user.avatar_url
    web_url := some user.web_url }

/-- `mapMergeRequestState`: `'opened'` maps to canonical `open`, `'merged'`
    passes through, everything else (including `'closed'` and `'locked'`)
    falls to the default `'closed'` branch. -/
def mapMergeRequestState (state : String) : PRState :=
  if state = "opened" then .open'
  else if state = "merged" then .merged
  else .closed

/-- `mapPullRequest`: `draft: mr.draft ?? mr.work_in_progress ?? false`,
    `mergeable: mr.merge_status === 'can_be_merged'`, state from the raw
    state string only. -/
def mapPullRequest (mr : GitLabMergeRequest) : PullRequest :=
  { id := mr.id
    iid := mr.iid
    title := mr.title
    description := mr.description
    state := mapMergeRequestState mr.state
    source_branch := mr.source_branch
    target_branch := mr.target_branch
    author := mapUser mr.author
    assignees := (mr.assignees.map (fun l => l.map mapUser)).getD []
    reviewers := (mr.reviewers.map (fun l => l.map mapUser)).getD []
    labels := mr.labels.getD []
    draft := match mr.draft with
      | some b => b
      | none => mr.work_in_progress.getD false
    mergeable := mr.merge_status == "can_be_merged"
    created_at := mr.created_at
    updated_at := mr.updated_at
    merged_at := mr.merged_at
    web_url := mr.web_url }

/-- `mapCommit`: `short_sha: commit.short_id` — the backend's abbreviated
    hash field is passed through unchanged. -/
def mapCommit (commit : GitLabCommit) : Commit :=
  { sha := commit.id
    short_sha := commit.short_id
    message := commit.message
    author_name := commit.author_name
    author_email := commit.author_email
    created_at := commit.authored_date
    web_url := some commit.web_url
    stats := commit.stats }

/-- The status decode underlying `mapJobStatus`: the `includes` membership
    check on the list of valid statuses followed by the cast. -/
def decodeStatus : String → Option JobStatus
  | "pending" => some .pending
  | "running" => some .running
  | "success" => some .success
  | "failed" => some .failed
  | "canceled" => some .canceled
  | "skipped" => some .skipped
  | _ => none

/-- `mapJobStatus`: pass valid statuses through, default everything else to
    `pending`. -/
def mapJobStatus (status : String) : JobStatus :=
  (decodeStatus status).getD .pending

/-- `mapJob`: `duration: job.duration` — the backend's duration field is
    passed through unchanged; the timestamps are not consulted. -/
def mapJob (job : GitLabJob) : Job :=
  { id := job.id
    name := job.name
    status := mapJobStatus job.status
    stage := job.stage
    created_at := job.created_at
    started_at := job.started_at
    finished_at := job.finished_at
    duration := job.duration
    web_url := job.web_url }

-- ============================================================================
-- GitLab adapter operations (gitlab provider)
-- ============================================================================

/-- The `scope` query parameter `mapJobListParams` sends for a job listing:
    `scope: params.status` (the canonical status string, forwarded
    verbatim); absent when no params or no status filter are given. -/
def listJobsScope (params : Option JobListParams) : Option String :=
  match params with
  | none => none
  | some p => p.status.map JobStatus.toStr

/-- `ci.listJobs`: the backend response (already filtered server-side via
    `scope`) is mapped entry by entry. -/
def listJobs (data : List GitLabJob) : List Job :=
  data.map mapJob

end GitLab

-- ============================================================================
-- Typed API errors (src/lib/errors.ts)
-- ============================================================================

inductive Provider
  | gitlab
  | github
deriving DecidableEq, Repr

/-- `gitStatusToCode`: HTTP-status-derived error code with a per-provider
    tag, a `SERVER_ERROR` bucket for 5xx and a generic fallback. -/
def gitStatusToCode (provider : Provider) (status : Nat) : String :=
  let pfx := match provider with
    | .gitlab => "GITLAB"
    | .github => "GITHUB"
  match status with
  | 400 => pfx ++ "_BAD_REQUEST"
  | 401 => pfx ++ "_UNAUTHORIZED"
  | 403 => pfx ++ "_FORBIDDEN"
  | 404 => pfx ++ "_NOT_FOUND"
  | 409 => pfx ++ "_CONFLICT"
  | 422 => pfx ++ "_VALIDATION_ERROR"
  | 429 => pfx ++ "_RATE_LIMITED"
  | _ => if status ≥ 500 then pfx ++ "_SERVER_ERROR" else pfx ++ "_ERROR"

/-- `GitApiError`: provider tag, HTTP status and extracted message; the
    code is derived by `gitStatusToCode` in the constructor. -/
structure GitApiError where
  provider : Provider
  status : Nat
  message : String
deriving DecidableEq, Repr

/-- `get retryable(): boolean` —
    `this.status === 429 || this.status >= 500`. -/
def GitApiError.retryable (e : GitApiError) : Bool :=
  e.status == 429 || e.status ≥ 500

def GitApiError.code (e : GitApiError) : String :=
  gitStatusToCode e.provider e.status

-- ============================================================================
-- HTTP layer (src/github/client.ts `request`)
-- ============================================================================

structure HttpResponse where
  ok : Bool
  status : Nat
  statusText : String
  body : String
deriving DecidableEq, Repr

/-- The GitHub client's `request` method, evaluated against the single
    response the one `fetch` call produced. The first component is the
    chronological list of responses consumed, i.e. one entry per `fetch`
    performed — the method body contains no loop and never re-issues the
    request, whatever the status. JSON error-body parsing is abstracted as
    `extractMsg` (the `extractErrorMessage` helper); the error message is
    `extractErrorMessage(data) || response.statusText`. -/
def githubRequest (extractMsg : String → Option String) (resp : HttpResponse) :
    List HttpResponse × Except GitApiError String :=
  ([resp],
    if resp.ok then .ok resp.body
    else .error
      { provider := .github
        status := resp.status
        message := jsOrStr (extractMsg resp.body) resp.statusText })

-- ============================================================================
-- Concrete sample values (used to instantiate the theorems below)
-- ============================================================================

def glUser : GitLab.GitLabUser :=
  { id := 1, username := "alice", name := "Alice", avatar_url := none
    web_url := "https://gitlab.example/alice" }

def glMR : GitLab.GitLabMergeRequest :=
  { id := 10, iid := 2, project_id := 7, title := "T", description := none
    state := "opened", source_branch := "feat", target_branch := "main"
    source_project_id := 7, target_project_id := 7, author := glUser
    assignees := none, reviewers := none, labels := none
    draft := none, work_in_progress := none, merge_status := "can_be_merged"
    web_url := "https://gitlab.example/mr/2"
    created_at := "2024-01-01T00:00:00Z", updated_at := "2024-01-02T00:00:00Z"
    merged_at := none, closed_at := none }

def ghUser : GH.GitHubUser :=
  { id := 1, login := "bob", name := some "Bob", avatar_url := "a"
    html_url := "h", type := "User" }

def ghPR : GH.GitHubPullRequest :=
  { id := 11, number := 3, title := "T", body := none, state := .open'
    draft := false, user := ghUser, assignees := [], requested_reviewers := []
    labels := [], head := { ref := "feat", sha := "h1", repo := none }
    base := { ref := "main", sha := "h2", repo := some { full_name := "o/r" } }
    merged := false, mergeable := none, mergeable_state := "clean"
    merged_at := none, merged_by := none, created_at := "c", updated_at := "u"
    closed_at := none, html_url := "w" }

def ghTreeItem1 : GH.GitHubTreeItem :=
  { path := "src/a.ts", mode := "100644", type := "blob", sha := "s1"
    size := none, url := "u1" }

def ghTreeItem2 : GH.GitHubTreeItem :=
  { path := "README.md", mode := "100644", type := "blob", sha := "s2"
    size := none, url := "u2" }

def ghTreeItem3 : GH.GitHubTreeItem :=
  { path := "src/b.ts", mode := "100644", type := "blob", sha := "s3"
    size := none, url := "u3" }

def glJobNoStart : GitLab.GitLabJob :=
  { id := 1, name := "build", stage := "test", status := "failed", ref := "main"
    created_at := "c", started_at := none
    finished_at := some "2024-01-01T00:00:10Z", duration := some 5, web_url := "w" }

def ghJobDone : GH.GitHubWorkflowJob :=
  { id := 9, run_id := 1, name := "build", status := "completed"
    conclusion := some "success", started_at := some "ab"
    completed_at := some "abc", html_url := "w" }

def ghFailedJob : GH.GitHubWorkflowJob :=
  { id := 2, run_id := 1, name := "test", status := "completed"
    conclusion := some "failure", started_at := none, completed_at := none
    html_url := "w" }

def glFailedJob : GitLab.GitLabJob :=
  { id := 3, name := "test", stage := "t", status := "failed", ref := "main"
    created_at := "c", started_at := none, finished_at := none
    duration := none, web_url := "w" }

def glCommitSample : GitLab.GitLabCommit :=
  { id := "0123456789abcdef0123456789abcdef01234567", short_id := "01234567"
    title := "t", message := "m", author_name := "A", author_email := "a@x"
    authored_date := "d", committer_name := "A", committer_email := "a@x"
    committed_date := "d", web_url := "w", parent_ids := none, stats := none }

def ghIssuePlain : GH.GitHubIssue :=
  { id := 20, number := 4, title := "I", body := none, state := .open'
    state_reason := none, user := ghUser, assignees := [], labels := []
    milestone := none, created_at := "c", updated_at := "u", closed_at := none
    html_url := "w", pull_request := none }

def ghIssuePRMarked : GH.GitHubIssue :=
  { id := 21, number := 5, title := "P", body := none, state := .open'
    state_reason := none, user := ghUser, assignees := [], labels := []
    milestone := none, created_at := "c", updated_at := "u", closed_at := none
    html_url := "w", pull_request := some { url := "u", html_url := "h" } }

-- ============================================================================
-- Helper lemmas
-- ============================================================================

/-- The two-valued raw state never passes through as `merged`. -/
lemma rawToPRState_ne_merged (s : IssueState) : GH.rawToPRState s ≠ .merged := by
  cases s <;> simp [GH.rawToPRState]

/-- Inside the `Promise.all`, the issued blob requests are exactly one
    `postBlob` per non-delete action, in input order. -/
lemma filterMap_blobReq_eq (actions : List FileAction) :
    actions.filterMap GH.blobReq
      = (actions.filter (fun a => a.action ≠ FileActionKind.delete)).map
          (fun a => GH.GitReq.postBlob (jsOrStr a.content "")) := by
  induction actions with
  | nil => rfl
  | cons a t ih =>
      by_cases h : a.action = FileActionKind.delete <;>
        simp [GH.blobReq, h, ih, List.filterMap_cons]

-- ============================================================================
-- Claim theorems
-- ============================================================================

/-- Claim C1, counterexample: a GitLab merge request whose raw state is
    `"opened"` but whose merge timestamp is non-null is mapped to canonical
    `open`, not `merged` — the GitLab mapper derives the state from the raw
    state string alone, so the claimed rule fails on the GitLab adapter. -/
theorem C1_counterexample :
    (GitLab.mapPullRequest
        { glMR with state := "opened", merged_at := some "2024-01-15T10:03:00Z" }).state
      = PRState.open'
  ∧ ({ glMR with state := "opened", merged_at := some "2024-01-15T10:03:00Z" }
      : GitLab.GitLabMergeRequest).merged_at ≠ none
  ∧ PRState.open' ≠ PRState.merged := by
  refine ⟨by decide, by decide, by decide⟩

/-- Claim C1, amended: the GitHub adapter maps to `merged` iff the `merged`
    flag is true or `merged_at` is truthy (non-null and non-empty),
    otherwise passes the raw state through; the GitLab adapter derives the
    canonical state from the raw state string alone — `"opened"` to `open`,
    `"merged"` to `merged`, everything else (including `"locked"`) to
    `closed` — without consulting the merge timestamp. -/
theorem C1_theorem :
    (∀ pr : GH.GitHubPullRequest,
        ((GH.mapPullRequest pr).state = PRState.merged ↔
          (pr.merged = true ∨ jsTruthyStr pr.merged_at = true))
      ∧ (pr.merged = false → jsTruthyStr pr.merged_at = false →
          (GH.mapPullRequest pr).state = GH.rawToPRState pr.state))
  ∧ (∀ mr : GitLab.GitLabMergeRequest,
      (GitLab.mapPullRequest mr).state = GitLab.mapMergeRequestState mr.state)
  ∧ GitLab.mapMergeRequestState "opened" = PRState.open'
  ∧ GitLab.mapMergeRequestState "merged" = PRState.merged
  ∧ (∀ s : String, s ≠ "opened" → s ≠ "merged" →
      GitLab.mapMergeRequestState s = PRState.closed) := by
  refine ⟨fun pr => ⟨?_, ?_⟩, fun mr => rfl, by decide, by decide,
    fun s h1 h2 => ?_⟩
  · show GH.mapPullRequestState pr = _ ↔ _
    unfold GH.mapPullRequestState
    cases h : pr.merged
    · cases h2 : jsTruthyStr pr.merged_at
      · simp [h, h2, rawToPRState_ne_merged]
      · simp [h, h2]
    · simp [h]
  · intro hm ht
    show GH.mapPullRequestState pr = _
    unfold GH.mapPullRequestState
    simp [hm, ht]
  · unfold GitLab.mapMergeRequestState
    rw [if_neg h1, if_neg h2]

/-- Claim C1, witness: instantiates the amended theorem at a concrete
    unmerged GitHub pull request and at the `"locked"` sub-state. -/
theorem C1_witness :
    (GH.mapPullRequest ghPR).state = GH.rawToPRState ghPR.state
  ∧ GitLab.mapMergeRequestState "locked" = PRState.closed :=
  ⟨(C1_theorem.1 ghPR).2 (by decide) (by decide),
   C1_theorem.2.2.2.2 "locked" (by decide) (by decide)⟩

/-- Claim C2, counterexample: an empty actions list is not rejected by the
    adapter — it falls through to the multi-step slow path — and a single
    move action takes the fast path, contradicting the claim's "any
    deletion or move among them" clause. -/
theorem C2_counterexample :
    GH.commitPathSelection [] = GH.CommitPath.slow
  ∧ GH.commitPathSelection
      [({ action := .move, path := "b.txt", content := some "hi"
          previous_path := some "a.txt" } : FileAction)]
      = GH.CommitPath.fast
  ∧ GH.CommitPath.fast ≠ GH.CommitPath.slow := by
  refine ⟨rfl, by decide, by decide⟩

/-- Claim C2, amended: the fast path is selected iff the actions list has
    exactly one element and that element is not a deletion (a single move
    also takes the fast path); every other input — the empty list, two or
    more actions, or a single deletion — takes the slow path; the adapter
    itself never rejects an empty list (the upstream tool schema does). -/
theorem C2_theorem (actions : List FileAction) :
    (GH.commitPathSelection actions = GH.CommitPath.fast ↔
      actions.length = 1 ∧ ∀ a ∈ actions, a.action ≠ FileActionKind.delete)
  ∧ (GH.commitPathSelection actions = GH.CommitPath.slow ↔
      ¬(actions.length = 1 ∧ ∀ a ∈ actions, a.action ≠ FileActionKind.delete)) := by
  match actions with
  | [] => simp [GH.commitPathSelection]
  | [a] =>
      by_cases h : a.action = FileActionKind.delete <;>
        simp [GH.commitPathSelection, h]
  | a :: b :: rest => simp [GH.commitPathSelection]

/-- Claim C2, witness: a single create takes the fast path. -/
theorem C2_witness :
    GH.commitPathSelection
      [({ action := .create, path := "a.txt", content := some "hi"
          previous_path := none } : FileAction)]
      = GH.CommitPath.fast :=
  (C2_theorem _).1.mpr (by decide)

/-- Claim C3, counterexample: with two create actions, the blob-creation
    step holds two requests in flight inside one `Promise.all` fan-out —
    not at most one at a time as the claim states. -/
theorem C3_counterexample :
    GH.stepWidth (GH.slowPathBlobStep
      [ ({ action := .create, path := "a.txt", content := some "x"
           previous_path := none } : FileAction)
      , ({ action := .create, path := "b.txt", content := some "y"
           previous_path := none } : FileAction) ]) = 2
  ∧ ¬((2 : Nat) ≤ 1) := by
  refine ⟨by decide, by decide⟩

/-- Claim C3, amended: the slow path's blob-creation step is a `Promise.all`
    fan-out holding one request per non-delete action in flight at once
    (initiated in input order); every other step of the chain is a single
    awaited request. -/
theorem C3_theorem (p : CommitParams) :
    (GH.slowPathPlan p).map GH.stepWidth
      = [1, 1,
         (p.actions.filter (fun a => a.action ≠ FileActionKind.delete)).length,
         1, 1, 1]
  ∧ GH.stepReqs (GH.slowPathBlobStep p.actions)
      = (p.actions.filter (fun a => a.action ≠ FileActionKind.delete)).map
          (fun a => GH.GitReq.postBlob (jsOrStr a.content "")) := by
  constructor
  · simp [GH.slowPathPlan, GH.slowPathBlobStep, GH.stepWidth, filterMap_blobReq_eq]
  · simp [GH.slowPathBlobStep, GH.stepReqs, filterMap_blobReq_eq]

/-- Claim C4: given the backend's flat tree and a path filter, requesting
    page `p` of size `s` returns exactly the slice `[(p-1)*s, p*s)` of the
    filtered entries, in order, and never an entry outside the filtered
    set. -/
theorem C4_theorem (tree : List GH.GitHubTreeItem) (pa : Option String)
    (p s : Nat) (hp : 1 ≤ p) (hs : 1 ≤ s) :
    GH.getTreeAssemble tree
        (some { path := pa, ref := none, recursive := none
                page := some p, per_page := some s })
      = ((GH.treeFilterByPath (tree.map GH.mapTreeEntry) pa).drop ((p - 1) * s)).take s
  ∧ ∀ e ∈ GH.getTreeAssemble tree
        (some { path := pa, ref := none, recursive := none
                page := some p, per_page := some s }),
      e ∈ GH.treeFilterByPath (tree.map GH.mapTreeEntry) pa := by
  have hp0 : ¬(p = 0) := by omega
  have hs0 : ¬(s = 0) := by omega
  have hmain :
      GH.getTreeAssemble tree
          (some { path := pa, ref := none, recursive := none
                  page := some p, per_page := some s })
        = ((GH.treeFilterByPath (tree.map GH.mapTreeEntry) pa).drop ((p - 1) * s)).take s := by
    simp [GH.getTreeAssemble, jsOrNat, hp0, hs0]
  refine ⟨hmain, ?_⟩
  intro e he
  rw [hmain] at he
  exact List.drop_subset _ _ (List.take_subset _ _ he)

/-- Claim C4, witness: in a three-entry tree filtered to the `src` path and
    paged with `p = 1`, `s = 2`, the `src/a.ts` entry is returned and lies
    inside the filtered set. -/
theorem C4_witness :
    GH.mapTreeEntry ghTreeItem1 ∈
      GH.treeFilterByPath
        ([ghTreeItem1, ghTreeItem2, ghTreeItem3].map GH.mapTreeEntry)
        (some "src") :=
  (C4_theorem [ghTreeItem1, ghTreeItem2, ghTreeItem3] (some "src") 1 2
      (by decide) (by decide)).2
    (GH.mapTreeEntry ghTreeItem1) (by decide)

/-- Claim C5, counterexample: a GitLab job whose `started_at` is null but
    whose backend `duration` field is 5 maps to canonical duration 5, not
    null — the GitLab mapper passes the backend's duration through instead
    of deriving it from the timestamps. -/
theorem C5_counterexample :
    (GitLab.mapJob glJobNoStart).duration = some 5
  ∧ glJobNoStart.started_at = none
  ∧ (some (5 : Int) : Option Int) ≠ none := by
  refine ⟨rfl, rfl, by decide⟩

/-- Claim C5, amended: the GitHub adapter derives the duration as
    `Math.round((completed_at − started_at) / 1000)` when both timestamps
    are truthy (negative deltas pass through) and yields null otherwise;
    the GitLab adapter passes the backend's `duration` field through
    unchanged, regardless of the timestamps. -/
theorem C5_theorem :
    (∀ (parse : String → Int) (now : String) (job : GH.GitHubWorkflowJob),
        (∀ s c, job.started_at = some s → s ≠ "" →
          job.completed_at = some c → c ≠ "" →
          (GH.mapJob parse now job).duration
            = some (jsRoundDiv1000 (parse c - parse s)))
      ∧ ((jsTruthyStr job.started_at = false ∨ jsTruthyStr job.completed_at = false) →
          (GH.mapJob parse now job).duration = none))
  ∧ (∀ job : GitLab.GitLabJob, (GitLab.mapJob job).duration = job.duration) := by
  refine ⟨fun parse now job => ⟨?_, ?_⟩, fun job => rfl⟩
  · intro s c hs hs' hc hc'
    simp [GH.mapJob, hs, hc, hs', hc']
  · intro h
    cases hs : job.started_at with
    | none => simp [GH.mapJob, hs]
    | some s =>
        cases hc : job.completed_at with
        | none => simp [GH.mapJob, hs, hc]
        | some c =>
            rcases h with h | h
            · have hs'' : s = "" := by
                rw [hs] at h
                simpa [jsTruthyStr] using h
              simp [GH.mapJob, hs, hc, hs'']
            · have hc'' : c = "" := by
                rw [hc] at h
                simpa [jsTruthyStr] using h
              simp [GH.mapJob, hs, hc, hc'']

/-- Claim C5, witness: with a toy parse function (length in seconds), a job
    with both timestamps present gets the derived rounded delta. -/
theorem C5_witness :
    (GH.mapJob (fun s => (s.length : Int) * 1000) "now" ghJobDone).duration
      = some 1 :=
  Eq.trans
    ((C5_theorem.1 (fun s => (s.length : Int) * 1000) "now" ghJobDone).1
      "ab" "abc" rfl (by decide) rfl (by decide))
    (by decide)

/-- Claim C6: the canonical draft flag takes the explicit `draft` field when
    present, falls back to the legacy `work_in_progress` field only when
    `draft` is absent, defaults to false when both are absent, and in
    particular `draft = false` with `work_in_progress = true` is reported
    as not draft; the GitHub adapter passes its always-present `draft`
    boolean through. -/
theorem C6_theorem :
    (∀ mr : GitLab.GitLabMergeRequest,
        (∀ b, mr.draft = some b → (GitLab.mapPullRequest mr).draft = b)
      ∧ (mr.draft = none → ∀ w, mr.work_in_progress = some w →
          (GitLab.mapPullRequest mr).draft = w)
      ∧ (mr.draft = none → mr.work_in_progress = none →
          (GitLab.mapPullRequest mr).draft = false))
  ∧ (∀ pr : GH.GitHubPullRequest, (GH.mapPullRequest pr).draft = pr.draft)
  ∧ (GitLab.mapPullRequest
      { glMR with draft := some false, work_in_progress := some true }).draft
      = false := by
  refine ⟨fun mr => ⟨?_, ?_, ?_⟩, fun pr => rfl, by decide⟩
  · intro b hb
    simp [GitLab.mapPullRequest, hb]
  · intro hd w hw
    simp [GitLab.mapPullRequest, hd, hw]
  · intro hd hw
    simp [GitLab.mapPullRequest, hd, hw]

/-- Claim C6, witness: with the explicit draft field absent, the legacy
    work-in-progress value is used. -/
theorem C6_witness :
    (GitLab.mapPullRequest
      { glMR with draft := none, work_in_progress := some true }).draft
      = true :=
  (C6_theorem.1 _).2.1 rfl true rfl

/-- Claim C7: a job listing filtered by canonical status `failed` never
    contains a job of a different canonical status — the GitHub adapter
    filters in memory on the mapped status; the GitLab adapter forwards the
    filter as the `scope=failed` query parameter, and every raw job the
    backend returns under that scope maps to canonical `failed`. -/
theorem C7_theorem :
    (∀ (parse : String → Int) (now : String)
        (jobs : List GH.GitHubWorkflowJob) (j : Job),
        j ∈ GH.listJobs parse now jobs
              (some { status := some .failed, page := none, per_page := none }) →
        j.status = JobStatus.failed)
  ∧ GitLab.listJobsScope
      (some { status := some .failed, page := none, per_page := none })
      = some "failed"
  ∧ (∀ (data : List GitLab.GitLabJob) (j : Job),
        (∀ r ∈ data, r.status = "failed") →
        j ∈ GitLab.listJobs data → j.status = JobStatus.failed) := by
  refine ⟨?_, rfl, ?_⟩
  · intro parse now jobs j hj
    simp [GH.listJobs] at hj
    obtain ⟨a, ⟨-, ha⟩, rfl⟩ := hj
    exact ha
  · intro data j hall hj
    simp [GitLab.listJobs] at hj
    obtain ⟨r, hr, rfl⟩ := hj
    have hst : r.status = "failed" := hall r hr
    simp [GitLab.mapJob, GitLab.mapJobStatus, GitLab.decodeStatus, hst]

/-- Claim C7, witness: a completed-with-failure GitHub job and a `failed`
    GitLab job both survive their adapters' `failed` filters with canonical
    status `failed`. -/
theorem C7_witness :
    (GH.mapJob (fun _ => 0) "now" ghFailedJob).status = JobStatus.failed
  ∧ (GitLab.mapJob glFailedJob).status = JobStatus.failed :=
  ⟨C7_theorem.1 (fun _ => 0) "now" [ghFailedJob]
      (GH.mapJob (fun _ => 0) "now" ghFailedJob) (by decide),
   C7_theorem.2.2 [glFailedJob] (GitLab.mapJob glFailedJob)
      (by decide) (by decide)⟩

/-- Claim C8, counterexample: the GitLab mapper's abbreviated hash is the
    backend's 8-character `short_id` passed through, which differs from the
    first 7 characters of the full hash. -/
theorem C8_counterexample :
    (GitLab.mapCommit glCommitSample).short_sha = "01234567"
  ∧ (GitLab.mapCommit glCommitSample).sha.take 7 = "0123456"
  ∧ ("01234567" : String) ≠ "0123456" := by
  refine ⟨rfl, by decide, by decide⟩

/-- Claim C8, amended: the GitHub adapter computes the abbreviated hash as
    the first 7 characters of the full hash, both in `mapCommit` and in the
    slow path's inline commit result; the GitLab adapter passes the
    backend's `short_id` field through, which need not equal the first 7
    characters of the full hash. -/
theorem C8_theorem :
    (∀ c : GH.GitHubCommit,
      (GH.mapCommit c).short_sha = (GH.mapCommit c).sha.take 7)
  ∧ (∀ r : GH.GitHubCreateCommitResponse,
      (GH.slowPathResultCommit r).short_sha = (GH.slowPathResultCommit r).sha.take 7)
  ∧ (∀ c : GitLab.GitLabCommit, (GitLab.mapCommit c).short_sha = c.short_id) := by
  refine ⟨fun c => ?_, fun r => ?_, fun c => rfl⟩
  · simp [GH.mapCommit]
  · simp [GH.slowPathResultCommit]

/-- Claim C9: a typed API error is retryable iff its HTTP status is 429 or
    at least 500, and the client layer performs no retry — the request path
    consumes exactly one fetched response per call, whatever the status. -/
theorem C9_theorem :
    (∀ e : GitApiError, e.retryable = true ↔ (e.status = 429 ∨ 500 ≤ e.status))
  ∧ (∀ (extractMsg : String → Option String) (resp : HttpResponse),
        (githubRequest extractMsg resp).1.length = 1
      ∧ (resp.ok = false →
          ∃ err, (githubRequest extractMsg resp).2 = Except.error err
            ∧ err.status = resp.status)) := by
  constructor
  · intro e
    simp [GitApiError.retryable]
  · intro extractMsg resp
    refine ⟨rfl, ?_⟩
    intro hok
    refine ⟨⟨.github, resp.status, jsOrStr (extractMsg resp.body) resp.statusText⟩, ?_, rfl⟩
    simp [githubRequest, hok]

/-- Claim C9, witness: a 503 is retryable, a failed response produces a
    typed error carrying the status, and exactly one fetch happens. -/
theorem C9_witness :
    GitApiError.retryable { provider := .github, status := 503, message := "boom" } = true
  ∧ (githubRequest (fun _ => none)
      { ok := false, status := 503, statusText := "Service Unavailable", body := "" }).1.length = 1
  ∧ ∃ err, (githubRequest (fun _ => none)
      { ok := false, status := 503, statusText := "Service Unavailable", body := "" }).2
        = Except.error err ∧ err.status = 503 :=
  ⟨(C9_theorem.1 { provider := .github, status := 503, message := "boom" }).mpr
      (Or.inr (by decide)),
   (C9_theorem.2 (fun _ => none)
      { ok := false, status := 503, statusText := "Service Unavailable", body := "" }).1,
   (C9_theorem.2 (fun _ => none)
      { ok := false, status := 503, statusText := "Service Unavailable", body := "" }).2 rfl⟩

/-- Claim C10: the GitHub issues listing drops every raw item carrying a
    `pull_request` marker before mapping — every returned canonical Issue
    comes from a raw item without the marker, and every unmarked raw item
    is kept. -/
theorem C10_theorem (data : List GH.GitHubIssue) :
    (∀ i ∈ GH.issuesList data,
      ∃ raw, raw ∈ data ∧ raw.pull_request = none ∧ i = GH.mapIssue raw)
  ∧ (∀ raw ∈ data, raw.pull_request = none →
      GH.mapIssue raw ∈ GH.issuesList data) := by
  constructor
  · intro i hi
    simp [GH.issuesList] at hi
    obtain ⟨raw, ⟨hmem, hnone⟩, rfl⟩ := hi
    exact ⟨raw, hmem, hnone, rfl⟩
  · intro raw hmem hnone
    simp [GH.issuesList]
    exact ⟨raw, ⟨hmem, hnone⟩, rfl⟩

/-- Claim C10, witness: in a listing containing one plain issue and one
    item carrying the `pull_request` marker, the mapped plain issue traces
    back to an unmarked raw item. -/
theorem C10_witness :
    ∃ raw, raw ∈ [ghIssuePlain, ghIssuePRMarked] ∧ raw.pull_request = none
      ∧ GH.mapIssue ghIssuePlain = GH.mapIssue raw :=
  (C10_theorem [ghIssuePlain, ghIssuePRMarked]).1
    (GH.mapIssue ghIssuePlain) (by decide)

end GitMcp
